import Mathlib

/-!
Shallow embedding of the Deep-Research-Agent repository
(`src/agents.py`, `src/server.py`) and proofs about it.

The repository wires three external systems together: the LinkUp search
API client, the crewai multi-agent framework, and a FastMCP stdio tool
server.  The external systems are modelled by an oracle record `World`
whose fields return `Except String _` values: an `Except.error e` models
a Python exception with message `e`.  Side effects (printing, client
construction, the network search call, completion of a pipeline task)
are recorded in an explicit event trace.
-/

namespace DeepResearch

/-- Observable side effects of one call, in order of occurrence.
`printLine` is a write to the process standard output stream (Python
`print` with its default file argument). -/
inductive Event where
  | printLine (line : String)
  | clientNew (apiKey : Option String)
  | clientSearchCall (query : String) (depth : String) (output_type : String)
  | taskDone (idx : Nat) (ctx : String) (out : String)
  deriving DecidableEq, Repr

/-- Oracles for the external systems: the process environment, the
LinkUp client, Python `str` conversion of the provider response, and
the LLM backing each agent.  A field returning `Except.error e` models
the corresponding Python call raising an exception with message `e`. -/
structure World where
  getenv_LINKUP_API_KEY : Option String
  newLinkupClient : Option String → Except String Nat
  clientSearch : Nat → String → String → String → Except String String
  strOf : String → String
  llmExec : String → String → String → Except String String

/-- `get_llm_client` in `src/agents.py`: the fixed LLM configuration. -/
structure LLM where
  model : String
  base_url : String
  api_key : String
  deriving DecidableEq, Repr

/-- `get_llm_client()` from `src/agents.py` (lines 14-19). -/
def get_llm_client : LLM :=
  { model := "ollama/tinyllama:1.1b-chat"
    base_url := "http://localhost:11434"
    api_key := "ollama" }

/-- The static data of the `LinkUpSearchTool` class (`src/agents.py`
lines 30-33): its name and description. -/
structure ToolSpec where
  name : String
  description : String
  deriving DecidableEq, Repr

/-- The `LinkUpSearchTool` instance data. -/
def linkUpSearchToolSpec : ToolSpec :=
  { name := "LinkUp Search"
    description := "Search the web for information using LinkUp and return comprehensive results" }

/-- The diagnostic line printed by `LinkUpSearchTool._run`
(`src/agents.py` line 40). -/
def searchLine (query : String) : String :=
  "[🔍 LinkUp Search] Searching for: " ++ query

/-- `LinkUpSearchTool._run` (`src/agents.py` lines 38-51): print a
diagnostic line, construct a `LinkupClient` from the environment
credential, issue the search, and return `str(result)`; any exception
is caught and converted to an error string.  Returns the event trace
together with the returned string; the function is total, so it never
raises. -/
def LinkUpSearchTool_run (w : World) (query : String) (depth : String)
    (output_type : String) : List Event × String :=
  let t0 := [Event.printLine (searchLine query),
             Event.clientNew w.getenv_LINKUP_API_KEY]
  match w.newLinkupClient w.getenv_LINKUP_API_KEY with
  | Except.error e => (t0, "Error during LinkUp search: " ++ e)
  | Except.ok c =>
    let t1 := t0 ++ [Event.clientSearchCall query depth output_type]
    match w.clientSearch c query depth output_type with
    | Except.error e => (t1, "Error during LinkUp search: " ++ e)
    | Except.ok resp => (t1, w.strOf resp)

/-- An `Agent(...)` construction from `src/agents.py`: role, goal,
backstory, verbosity, delegation flag, tool list, LLM reference. -/
structure Agent where
  role : String
  goal : String
  backstory : String
  verbose : Bool
  allow_delegation : Bool
  tools : List ToolSpec
  llm : LLM
  deriving DecidableEq, Repr

/-- The pre-filled tool invocation arguments of the `tool_choice`
keyword of `search_task` (`src/agents.py` lines 94-101). -/
structure ToolChoiceArgs where
  query : String
  depth : String
  output_type : String
  deriving DecidableEq, Repr

/-- The `tool_choice` value of `search_task`. -/
structure ToolChoice where
  name : String
  arguments : ToolChoiceArgs
  deriving DecidableEq, Repr

/-- A `Task(...)` construction from `src/agents.py`.  `context` is
`some l` when the Python call passes a `context=[...]` keyword whose
entries are the tasks at indices `l` of the crew's task list, and
`none` when no `context` keyword is passed. -/
structure Task where
  description : String
  agent : Agent
  expected_output : String
  tools : List ToolSpec
  tool_choice : Option ToolChoice
  context : Option (List Nat)
  deriving DecidableEq, Repr

/-- The `process=` keyword of `Crew(...)`. -/
inductive ProcessKind where
  | sequential
  | hierarchical
  deriving DecidableEq, Repr

/-- A `Crew(...)` construction from `src/agents.py` (lines 118-123). -/
structure Crew where
  agents : List Agent
  tasks : List Task
  verbose : Bool
  process : ProcessKind
  deriving DecidableEq, Repr

/-- `create_research_crew(query)` from `src/agents.py` (lines 55-125):
one LinkUp tool, one LLM client, three agents, three tasks (the second
and third with explicit `context` lists pointing at their upstream
task), and a sequential crew. -/
def create_research_crew (query : String) : Crew :=
  let linkup_tool := linkUpSearchToolSpec
  let client := get_llm_client
  let web_searcher : Agent :=
    { role := "Web Searcher"
      goal := "Find the most relevant information on the web, with source links."
      backstory := "An expert at searching and gathering high-quality online information."
      verbose := true
      allow_delegation := true
      tools := [linkup_tool]
      llm := client }
  let research_analyst : Agent :=
    { role := "Research Analyst"
      goal := "Analyze and synthesize information from search results."
      backstory := "A critical thinker who transforms raw data into structured insights."
      verbose := true
      allow_delegation := true
      tools := []
      llm := client }
  let technical_writer : Agent :=
    { role := "Technical Writer"
      goal := "Answer the user's original query in a clear, fact-based, and simple manner using the research analysis. Always include relevant examples and cite sources."
      backstory := "An expert communicator who explains complex topics in simple words for a general audience."
      verbose := true
      allow_delegation := false
      tools := []
      llm := client }
  let search_task : Task :=
    { description := "Search for information about: '" ++ query ++ "' using LinkUp."
      agent := web_searcher
      expected_output := "Raw search results with sources (urls)."
      tools := [linkup_tool]
      tool_choice := some
        { name := "LinkUp Search"
          arguments := { query := query, depth := "standard", output_type := "structured" } }
      context := none }
  let analysis_task : Task :=
    { description := "Analyze the search results, extract important insights, verify facts."
      agent := research_analyst
      expected_output := "Verified insights with relevant sources."
      tools := []
      tool_choice := none
      context := some [0] }
  let writing_task : Task :=
    { description := "Create a final markdown response based on analysis."
      agent := technical_writer
      expected_output := "Well-structured answer with citations and clear explanations."
      tools := []
      tool_choice := none
      context := some [1] }
  { agents := [web_searcher, research_analyst, technical_writer]
    tasks := [search_task, analysis_task, writing_task]
    verbose := true
    process := ProcessKind.sequential }

/-- Modelled from the spec: the input context a task receives is the
concatenation of the outputs of the tasks named in its `context` list
(crewai's `Crew.kickoff` is external library code, not part of this
repository; its sequential semantics follow spec sections 4.2-4.4). -/
def contextOf (outputs : List String) (t : Task) : String :=
  String.intercalate "\n" ((t.context.getD []).filterMap (fun i => outputs.get? i))

/-- Modelled from the spec: a stage whose output is an error string is
terminal ("terminal state is WRITE (success) or an error string
returned from any stage", spec section 4.4). -/
def isErrorResult (s : String) : Bool :=
  "Error during".data.isPrefixOf s.data

/-- Modelled from the spec: execution of one task.  A task with
pre-filled tool invocation arguments runs the LinkUp tool with exactly
those arguments (spec section 4.2, Task 1); a task without runs its
agent's LLM on the task description and upstream context. -/
def execTask (w : World) (outputs : List String) (t : Task) :
    List Event × Except String String :=
  match t.tool_choice with
  | some tc =>
    let r := LinkUpSearchTool_run w tc.arguments.query tc.arguments.depth
      tc.arguments.output_type
    (r.1, Except.ok r.2)
  | none => ([], w.llmExec t.agent.role t.description (contextOf outputs t))

/-- Modelled from the spec: `Process.sequential` execution of the task
list in order — each task runs only after all earlier tasks completed,
consuming its context tasks' outputs; an error-string output is
terminal; the final value is the last completed task's raw output
(spec sections 4.3, 4.4).  crewai's `Crew.kickoff` is external library
code, not part of this repository. -/
def kickoffGo (w : World) : List Task → Nat → List String → List Event →
    List Event × Except String String
  | [], _, outputs, trace => (trace, Except.ok ((outputs.getLast?).getD ""))
  | t :: rest, idx, outputs, trace =>
    match execTask w outputs t with
    | (ev, Except.error e) => (trace ++ ev, Except.error e)
    | (ev, Except.ok out) =>
      let trace2 := trace ++ ev ++ [Event.taskDone idx (contextOf outputs t) out]
      if isErrorResult out then (trace2, Except.ok out)
      else kickoffGo w rest (idx + 1) (outputs ++ [out]) trace2

/-- Modelled from the spec: `crew.kickoff()` runs the crew's tasks
sequentially; `Except.error e` models the call raising an exception
with message `e`. -/
def kickoff (w : World) (c : Crew) : List Event × Except String String :=
  kickoffGo w c.tasks 0 [] []

/-- `run_research(query)` from `src/agents.py` (lines 129-135): build
the crew, kick it off, return the raw final output; any exception is
caught and converted to `"Error during crew execution: <message>"`.
Returns the event trace together with the returned string. -/
def run_research (w : World) (query : String) : List Event × String :=
  match kickoff w (create_research_crew query) with
  | (tr, Except.ok result) => (tr, result)
  | (tr, Except.error e) => (tr, "Error during crew execution: " ++ e)

/-- One tool registration of the FastMCP server: operation name,
parameter name, parameter type annotation, return type annotation. -/
structure ToolRegistration where
  name : String
  paramName : String
  paramType : String
  returnType : String
  deriving DecidableEq, Repr

/-- The tools registered on the `FastMCP("crew_research")` instance in
`src/server.py`: exactly the one `@mcp.tool()` decorated function. -/
def mcpTools : List ToolRegistration :=
  [{ name := "crew_research"
     paramName := "query"
     paramType := "str"
     returnType := "str" }]

/-- `crew_research(query)` from `src/server.py` (lines 8-18): the tool
body delegates directly to `run_research`. -/
def crew_research (w : World) (query : String) : String :=
  (run_research w query).2

/-- The transport passed to `mcp.run` in `src/server.py` line 23. -/
def mainTransport : String := "stdio"

/-- Python object identity for one `create_research_crew` call: every
constructor call in the function body (`LinkUpSearchTool()`, `LLM(...)`,
three `Agent(...)`, three `Task(...)`, `Crew(...)`) yields a fresh
object.  Identities are modelled by consecutive allocation numbers
starting at the supplied counter; the next free counter is returned. -/
structure CrewAllocation where
  linkup_tool : Nat
  client : Nat
  web_searcher : Nat
  research_analyst : Nat
  technical_writer : Nat
  search_task : Nat
  analysis_task : Nat
  writing_task : Nat
  crew : Nat
  deriving DecidableEq, Repr

/-- Allocation behaviour of `create_research_crew` (`src/agents.py`
lines 55-125): nine fresh objects per call. -/
def create_research_crew_alloc (n : Nat) : CrewAllocation × Nat :=
  (⟨n, n + 1, n + 2, n + 3, n + 4, n + 5, n + 6, n + 7, n + 8⟩, n + 9)

/-- The identities of all objects constructed by one call. -/
def allocIds (a : CrewAllocation) : List Nat :=
  [a.linkup_tool, a.client, a.web_searcher, a.research_analyst,
   a.technical_writer, a.search_task, a.analysis_task, a.writing_task, a.crew]

/-- Recognizer for diagnostic-print events. -/
def isPrintEvent : Event → Bool
  | Event.printLine _ => true
  | _ => false

/-- The task-completion events of a trace: stage index, the context
string the stage consumed, and the output it produced. -/
def taskEvents (tr : List Event) : List (Nat × String × String) :=
  tr.filterMap (fun ev =>
    match ev with
    | Event.taskDone i c o => some (i, c, o)
    | _ => none)

/-- `chainFrom i prev outs` is the strictly sequential stage chain
starting at stage index `i` with upstream context `prev`: each stage
consumes exactly the previous stage's output as its context. -/
def chainFrom : Nat → String → List String → List (Nat × String × String)
  | _, _, [] => []
  | i, prev, o :: rest => (i, prev, o) :: chainFrom (i + 1) o rest

/-- The events of the search stage up to and including the network
call. -/
def searchTrace (w : World) (q : String) : List Event :=
  [Event.printLine (searchLine q),
   Event.clientNew w.getenv_LINKUP_API_KEY,
   Event.clientSearchCall q "standard" "structured"]

/-- A concrete world in which every external call succeeds: the client
constructs, the search returns `"RESP"`, and each agent's LLM wraps its
context.  Used to instantiate universally quantified theorems. -/
def wHappy : World :=
  { getenv_LINKUP_API_KEY := some "k"
    newLinkupClient := fun _ => Except.ok 0
    clientSearch := fun _ _ _ _ => Except.ok "RESP"
    strOf := fun s => s
    llmExec := fun role _ ctx =>
      if role = "Technical Writer" then Except.ok ("FINAL:" ++ ctx)
      else Except.ok ("INSIGHTS:" ++ ctx) }

/-! ## Helper lemmas -/

theorem isErrorResult_linkup (e : String) :
    isErrorResult ("Error during LinkUp search: " ++ e) = true := rfl

theorem linkup_error_split (e : String) :
    "Error during LinkUp search: " ++ e
      = "Error during" ++ (" LinkUp search: " ++ e) := rfl

theorem intercalate_singleton (a : String) :
    String.intercalate "\n" [a] = a := rfl

theorem intercalate_nil : String.intercalate "\n" [] = "" := rfl

/-- Every event in the trace of one `LinkUpSearchTool._run` call is the
diagnostic print, the client construction, or the search call with the
arguments the tool was invoked with. -/
theorem LinkUpSearchTool_run_trace_mem (w : World) (q d ot : String)
    (ev : Event) (h : ev ∈ (LinkUpSearchTool_run w q d ot).1) :
    ev = Event.printLine (searchLine q) ∨
    ev = Event.clientNew w.getenv_LINKUP_API_KEY ∨
    ev = Event.clientSearchCall q d ot := by
  rcases h1 : w.newLinkupClient w.getenv_LINKUP_API_KEY with e | c
  · simp only [LinkUpSearchTool_run, h1, List.mem_cons, List.not_mem_nil,
      or_false] at h
    tauto
  · rcases h2 : w.clientSearch c q d ot with e | resp <;>
      simp only [LinkUpSearchTool_run, h1, h2, List.cons_append, List.nil_append,
        List.mem_cons, List.not_mem_nil, or_false] at h <;>
      tauto

/-- Exhaustive case analysis of one `run_research` call: depending on
the oracle outcomes the run halts after the search stage (client
construction failure, search failure, or an error-string search
output), after the analysis stage, or completes all three stages; in
every case the event trace and the returned string are fully
determined. -/
theorem run_research_shape (w : World) (q : String) :
    (∃ e, w.newLinkupClient w.getenv_LINKUP_API_KEY = Except.error e ∧
      run_research w q =
        ([Event.printLine (searchLine q), Event.clientNew w.getenv_LINKUP_API_KEY,
          Event.taskDone 0 "" ("Error during LinkUp search: " ++ e)],
         "Error during LinkUp search: " ++ e)) ∨
    (∃ c e, w.newLinkupClient w.getenv_LINKUP_API_KEY = Except.ok c ∧
      w.clientSearch c q "standard" "structured" = Except.error e ∧
      run_research w q =
        (searchTrace w q ++
          [Event.taskDone 0 "" ("Error during LinkUp search: " ++ e)],
         "Error during LinkUp search: " ++ e)) ∨
    (∃ c resp, w.newLinkupClient w.getenv_LINKUP_API_KEY = Except.ok c ∧
      w.clientSearch c q "standard" "structured" = Except.ok resp ∧
      isErrorResult (w.strOf resp) = true ∧
      run_research w q =
        (searchTrace w q ++ [Event.taskDone 0 "" (w.strOf resp)], w.strOf resp)) ∨
    (∃ c resp e, w.newLinkupClient w.getenv_LINKUP_API_KEY = Except.ok c ∧
      w.clientSearch c q "standard" "structured" = Except.ok resp ∧
      isErrorResult (w.strOf resp) = false ∧
      w.llmExec "Research Analyst"
        "Analyze the search results, extract important insights, verify facts."
        (w.strOf resp) = Except.error e ∧
      run_research w q =
        (searchTrace w q ++ [Event.taskDone 0 "" (w.strOf resp)],
         "Error during crew execution: " ++ e)) ∨
    (∃ c resp out2, w.newLinkupClient w.getenv_LINKUP_API_KEY = Except.ok c ∧
      w.clientSearch c q "standard" "structured" = Except.ok resp ∧
      isErrorResult (w.strOf resp) = false ∧
      w.llmExec "Research Analyst"
        "Analyze the search results, extract important insights, verify facts."
        (w.strOf resp) = Except.ok out2 ∧
      isErrorResult out2 = true ∧
      run_research w q =
        (searchTrace w q ++ [Event.taskDone 0 "" (w.strOf resp),
          Event.taskDone 1 (w.strOf resp) out2], out2)) ∨
    (∃ c resp out2 e, w.newLinkupClient w.getenv_LINKUP_API_KEY = Except.ok c ∧
      w.clientSearch c q "standard" "structured" = Except.ok resp ∧
      isErrorResult (w.strOf resp) = false ∧
      w.llmExec "Research Analyst"
        "Analyze the search results, extract important insights, verify facts."
        (w.strOf resp) = Except.ok out2 ∧
      isErrorResult out2 = false ∧
      w.llmExec "Technical Writer"
        "Create a final markdown response based on analysis." out2 =
        Except.error e ∧
      run_research w q =
        (searchTrace w q ++ [Event.taskDone 0 "" (w.strOf resp),
          Event.taskDone 1 (w.strOf resp) out2],
         "Error during crew execution: " ++ e)) ∨
    (∃ c resp out2 out3, w.newLinkupClient w.getenv_LINKUP_API_KEY = Except.ok c ∧
      w.clientSearch c q "standard" "structured" = Except.ok resp ∧
      isErrorResult (w.strOf resp) = false ∧
      w.llmExec "Research Analyst"
        "Analyze the search results, extract important insights, verify facts."
        (w.strOf resp) = Except.ok out2 ∧
      isErrorResult out2 = false ∧
      w.llmExec "Technical Writer"
        "Create a final markdown response based on analysis." out2 =
        Except.ok out3 ∧
      run_research w q =
        (searchTrace w q ++ [Event.taskDone 0 "" (w.strOf resp),
          Event.taskDone 1 (w.strOf resp) out2,
          Event.taskDone 2 out2 out3], out3)) := by
  rcases h1 : w.newLinkupClient w.getenv_LINKUP_API_KEY with e | c
  · refine Or.inl ⟨e, rfl, ?_⟩
    simp [run_research, kickoff, create_research_crew, kickoffGo, execTask,
      LinkUpSearchTool_run, contextOf, h1, isErrorResult_linkup, intercalate_nil]
  · rcases h2 : w.clientSearch c q "standard" "structured" with e | resp
    · refine Or.inr (Or.inl ⟨c, e, rfl, h2, ?_⟩)
      simp [run_research, kickoff, create_research_crew, kickoffGo, execTask,
        LinkUpSearchTool_run, contextOf, searchTrace, h1, h2,
        isErrorResult_linkup, intercalate_nil]
    · rcases h3 : isErrorResult (w.strOf resp)
      · rcases h4 : w.llmExec "Research Analyst"
          "Analyze the search results, extract important insights, verify facts."
          (w.strOf resp) with e | out2
        · refine Or.inr (Or.inr (Or.inr (Or.inl ⟨c, resp, e, rfl, h2, h3, h4, ?_⟩)))
          simp [run_research, kickoff, create_research_crew, kickoffGo, execTask,
            LinkUpSearchTool_run, contextOf, searchTrace, h1, h2, h3, h4,
            intercalate_nil, intercalate_singleton]
        · rcases h5 : isErrorResult out2
          · rcases h6 : w.llmExec "Technical Writer"
              "Create a final markdown response based on analysis." out2 with e | out3
            · refine Or.inr (Or.inr (Or.inr (Or.inr (Or.inr (Or.inl
                ⟨c, resp, out2, e, rfl, h2, h3, h4, h5, h6, ?_⟩)))))
              simp [run_research, kickoff, create_research_crew, kickoffGo,
                execTask, LinkUpSearchTool_run, contextOf, searchTrace, h1, h2,
                h3, h4, h5, h6, intercalate_nil, intercalate_singleton]
            · refine Or.inr (Or.inr (Or.inr (Or.inr (Or.inr (Or.inr
                ⟨c, resp, out2, out3, rfl, h2, h3, h4, h5, h6, ?_⟩)))))
              simp [run_research, kickoff, create_research_crew, kickoffGo,
                execTask, LinkUpSearchTool_run, contextOf, searchTrace, h1, h2,
                h3, h4, h5, h6, intercalate_nil, intercalate_singleton]
          · refine Or.inr (Or.inr (Or.inr (Or.inr (Or.inl
              ⟨c, resp, out2, rfl, h2, h3, h4, h5, ?_⟩))))
            simp [run_research, kickoff, create_research_crew, kickoffGo,
              execTask, LinkUpSearchTool_run, contextOf, searchTrace, h1, h2,
              h3, h4, h5, intercalate_nil, intercalate_singleton]
      · refine Or.inr (Or.inr (Or.inl ⟨c, resp, rfl, h2, h3, ?_⟩))
        simp [run_research, kickoff, create_research_crew, kickoffGo, execTask,
          LinkUpSearchTool_run, contextOf, searchTrace, h1, h2, h3,
          intercalate_nil]

/-! ## Claims -/

/-- C1: for every query string, `run_research(query)` returns a string
(it is a total function into `String`), and the returned string is the
pipeline's raw final output when no exception occurred, or
`"Error during crew execution: <message>"` when any exception was
raised during pipeline construction, execution, or final-result
extraction (all modelled as an `Except.error` outcome of `kickoff`). -/
theorem claim_C1_run_research_total_and_catches (w : World) (q : String) :
    (∃ r, (kickoff w (create_research_crew q)).2 = Except.ok r ∧
      (run_research w q).2 = r) ∨
    (∃ e, (kickoff w (create_research_crew q)).2 = Except.error e ∧
      (run_research w q).2 = "Error during crew execution: " ++ e) := by
  rcases h : kickoff w (create_research_crew q) with ⟨tr, r⟩
  cases r with
  | ok v =>
    exact Or.inl ⟨v, rfl, by simp [run_research, h]⟩
  | error e =>
    exact Or.inr ⟨e, rfl, by simp [run_research, h]⟩

/-- C2: every invocation of `LinkUpSearchTool._run` falls in exactly one
of three cases — client construction raised, the search call raised, or
the search succeeded.  In the two failure cases the returned string is
`"Error during LinkUp search: <message>"`; on success it is the
provider's response converted to its textual representation.  `_run`
itself is a total function, so it never raises. -/
theorem claim_C2_search_adapter_catches (w : World) (q d ot : String) :
    (∃ e, w.newLinkupClient w.getenv_LINKUP_API_KEY = Except.error e ∧
      (LinkUpSearchTool_run w q d ot).2 = "Error during LinkUp search: " ++ e) ∨
    (∃ c e, w.newLinkupClient w.getenv_LINKUP_API_KEY = Except.ok c ∧
      w.clientSearch c q d ot = Except.error e ∧
      (LinkUpSearchTool_run w q d ot).2 = "Error during LinkUp search: " ++ e) ∨
    (∃ c resp, w.newLinkupClient w.getenv_LINKUP_API_KEY = Except.ok c ∧
      w.clientSearch c q d ot = Except.ok resp ∧
      (LinkUpSearchTool_run w q d ot).2 = w.strOf resp) := by
  rcases h1 : w.newLinkupClient w.getenv_LINKUP_API_KEY with e | c
  · exact Or.inl ⟨e, rfl, by simp [LinkUpSearchTool_run, h1]⟩
  · rcases h2 : w.clientSearch c q d ot with e | resp
    · exact Or.inr (Or.inl ⟨c, e, rfl, h2, by simp [LinkUpSearchTool_run, h1, h2]⟩)
    · exact Or.inr (Or.inr ⟨c, resp, rfl, h2, by simp [LinkUpSearchTool_run, h1, h2]⟩)

/-- C3: when the search adapter's underlying call raises, the resulting
error string is terminal — the run's full event trace shows that only
the search task produced an output and no later stage ran — and the
final result of the pipeline runner is that very error string, which
contains (indeed starts with) the fixed text `"Error during"`. -/
theorem claim_C3_search_failure_terminal (w : World) (q : String)
    (c : Nat) (e : String)
    (hc : w.newLinkupClient w.getenv_LINKUP_API_KEY = Except.ok c)
    (hs : w.clientSearch c q "standard" "structured" = Except.error e) :
    (run_research w q).2 = "Error during LinkUp search: " ++ e ∧
    (∃ rest, (run_research w q).2 = "Error during" ++ rest) ∧
    (run_research w q).1 =
      [Event.printLine (searchLine q),
       Event.clientNew w.getenv_LINKUP_API_KEY,
       Event.clientSearchCall q "standard" "structured",
       Event.taskDone 0 "" ("Error during LinkUp search: " ++ e)] := by
  have hrun : run_research w q =
      ([Event.printLine (searchLine q),
        Event.clientNew w.getenv_LINKUP_API_KEY,
        Event.clientSearchCall q "standard" "structured",
        Event.taskDone 0 "" ("Error during LinkUp search: " ++ e)],
       "Error during LinkUp search: " ++ e) := by
    simp [run_research, kickoff, create_research_crew, kickoffGo, execTask,
      LinkUpSearchTool_run, contextOf, hc, hs, isErrorResult_linkup,
      intercalate_nil]
  refine ⟨by rw [hrun], ⟨" LinkUp search: " ++ e, ?_⟩, by rw [hrun]⟩
  rw [hrun, linkup_error_split]

/-- Witness for C3 at a concrete world whose search call raises. -/
theorem claim_C3_search_failure_terminal_witness :
    (run_research
      { getenv_LINKUP_API_KEY := some "k"
        newLinkupClient := fun _ => Except.ok 0
        clientSearch := fun _ _ _ _ => Except.error "boom"
        strOf := fun s => s
        llmExec := fun _ _ _ => Except.ok "unused" } "q").2 =
      "Error during LinkUp search: boom" :=
  (claim_C3_search_failure_terminal
    { getenv_LINKUP_API_KEY := some "k"
      newLinkupClient := fun _ => Except.ok 0
      clientSearch := fun _ _ _ _ => Except.error "boom"
      strOf := fun s => s
      llmExec := fun _ _ _ => Except.ok "unused" } "q" 0 "boom" rfl rfl).1

/-- C4: pipeline execution is strictly sequential and deterministic
(`run_research` is a function of the world and query): in every run the
completed stages form a chain — stage 0 first with empty upstream
context, then stage 1 consuming exactly stage 0's output as its only
context, then stage 2 consuming exactly stage 1's output — so stage
`i + 1` never executes before stage `i` has completed. -/
theorem claim_C4_sequential_order (w : World) (q : String) :
    ∃ outs : List String, outs.length ≤ 3 ∧
      taskEvents (run_research w q).1 = chainFrom 0 "" outs := by
  rcases run_research_shape w q with
    ⟨e, h1, hr⟩ | ⟨c, e, h1, h2, hr⟩ | ⟨c, resp, h1, h2, h3, hr⟩ |
    ⟨c, resp, e, h1, h2, h3, h4, hr⟩ | ⟨c, resp, out2, h1, h2, h3, h4, h5, hr⟩ |
    ⟨c, resp, out2, e, h1, h2, h3, h4, h5, h6, hr⟩ |
    ⟨c, resp, out2, out3, h1, h2, h3, h4, h5, h6, hr⟩
  · exact ⟨["Error during LinkUp search: " ++ e], by simp,
      by simp [hr, taskEvents, chainFrom]⟩
  · exact ⟨["Error during LinkUp search: " ++ e], by simp,
      by simp [hr, taskEvents, searchTrace, chainFrom]⟩
  · exact ⟨[w.strOf resp], by simp, by simp [hr, taskEvents, searchTrace, chainFrom]⟩
  · exact ⟨[w.strOf resp], by simp, by simp [hr, taskEvents, searchTrace, chainFrom]⟩
  · exact ⟨[w.strOf resp, out2], by simp,
      by simp [hr, taskEvents, searchTrace, chainFrom]⟩
  · exact ⟨[w.strOf resp, out2], by simp,
      by simp [hr, taskEvents, searchTrace, chainFrom]⟩
  · exact ⟨[w.strOf resp, out2, out3], by simp,
      by simp [hr, taskEvents, searchTrace, chainFrom]⟩

/-- C5: the search task is constructed with pre-filled tool-invocation
arguments — the caller's query verbatim, `depth="standard"` and
`output_type="structured"` — and every search call the run ever issues
carries exactly these arguments, regardless of query content. -/
theorem claim_C5_fixed_search_params (w : World) (q : String) :
    ((create_research_crew q).tasks.get? 0).map (fun t => t.tool_choice) =
      some (some
        { name := "LinkUp Search"
          arguments := { query := q, depth := "standard", output_type := "structured" } }) ∧
    (∀ q' d ot, Event.clientSearchCall q' d ot ∈ (run_research w q).1 →
      q' = q ∧ d = "standard" ∧ ot = "structured") := by
  refine ⟨by simp [create_research_crew], ?_⟩
  intro q' d ot hmem
  rcases run_research_shape w q with
    ⟨e, h1, hr⟩ | ⟨c, e, h1, h2, hr⟩ | ⟨c, resp, h1, h2, h3, hr⟩ |
    ⟨c, resp, e, h1, h2, h3, h4, hr⟩ | ⟨c, resp, out2, h1, h2, h3, h4, h5, hr⟩ |
    ⟨c, resp, out2, e, h1, h2, h3, h4, h5, h6, hr⟩ |
    ⟨c, resp, out2, out3, h1, h2, h3, h4, h5, h6, hr⟩ <;>
    (rw [hr] at hmem; simp [searchTrace] at hmem; try tauto)

/-- Witness for C5 at the happy-path world: the run issues a search
call, and its arguments are the query with the two fixed parameters. -/
theorem claim_C5_fixed_search_params_witness :
    Event.clientSearchCall "quantum" "standard" "structured" ∈
      (run_research wHappy "quantum").1 ∧
    ("quantum" = "quantum" ∧ "standard" = "standard" ∧ "structured" = "structured") := by
  have hmem : Event.clientSearchCall "quantum" "standard" "structured" ∈
      (run_research wHappy "quantum").1 := by decide
  exact ⟨hmem,
    (claim_C5_fixed_search_params wHappy "quantum").2 "quantum" "standard" "structured" hmem⟩

/-- C6 counterexample: it is not the case that exactly the first two
constructed tasks carry an explicit context list — at query `"q"` the
per-task pattern of carrying a context list is `[false, true, true]`,
not `[true, true, false]`: the first task (search) carries none. -/
theorem claim_C6_counterexample :
    ¬ ((create_research_crew "q").tasks.map (fun t => t.context.isSome)
        = [true, true, false]) := by
  decide

/-- C6 (amended): of the three constructed tasks, exactly the last two
(analysis and writing) carry an explicit list of upstream tasks whose
outputs become that task's input context — the analysis task lists the
search task and the writing task lists the analysis task. -/
theorem claim_C6_context_on_last_two (q : String) :
    (create_research_crew q).tasks.map (fun t => t.context)
      = [none, some [0], some [1]] := by
  simp [create_research_crew]

/-- C7 counterexample: no non-emptiness check exists — the empty query
is not rejected anywhere between the tool-server entry point and the
pipeline: at a world where every external call succeeds, the empty
query reaches the search provider verbatim and the call returns the
ordinary final answer instead of any validation failure. -/
theorem claim_C7_counterexample :
    crew_research wHappy "" = "FINAL:INSIGHTS:RESP" ∧
    Event.clientSearchCall "" "standard" "structured" ∈
      (run_research wHappy "").1 := by
  exact ⟨by decide, by decide⟩

/-- C7 (amended): no validation at all is performed on the query
between the tool-server entry point and the pipeline runner: the server
operation delegates the query verbatim to the runner, and the runner
places it verbatim (whatever its content, the empty string included) in
the search task's pre-filled tool arguments. -/
theorem claim_C7_no_validation (w : World) (q : String) :
    crew_research w q = (run_research w q).2 ∧
    ((create_research_crew q).tasks.get? 0).map (fun t => t.tool_choice) =
      some (some
        { name := "LinkUp Search"
          arguments := { query := q, depth := "standard", output_type := "structured" } }) :=
  ⟨rfl, by simp [create_research_crew]⟩

/-- C8: the tool server registers exactly one callable operation,
named `crew_research`, with the single required string parameter
`query` and a string return, and its body delegates directly to the
pipeline runner. -/
theorem claim_C8_single_operation :
    mcpTools.length = 1 ∧
    mcpTools = [{ name := "crew_research", paramName := "query",
                  paramType := "str", returnType := "str" }] ∧
    ∀ w q, crew_research w q = (run_research w q).2 :=
  ⟨rfl, rfl, fun _ _ => rfl⟩

/-- C9: two successive calls construct entirely fresh objects — the
nine objects built by one `create_research_crew` call are pairwise
distinct, and no object of the first call is among the objects of the
second call. -/
theorem claim_C9_fresh_per_call (n : Nat) :
    (allocIds (create_research_crew_alloc n).1).Nodup ∧
    ∀ i, i ∈ allocIds (create_research_crew_alloc n).1 →
      i ∉ allocIds (create_research_crew_alloc
        (create_research_crew_alloc n).2).1 := by
  constructor
  · simp [create_research_crew_alloc, allocIds]
    try omega
  · intro i hi hj
    simp [create_research_crew_alloc, allocIds] at hi hj
    omega

/-- Witness for C9: the first object of the first call is not among
the objects of the second call. -/
theorem claim_C9_fresh_per_call_witness :
    (0 : Nat) ∉ allocIds (create_research_crew_alloc
      (create_research_crew_alloc 0).2).1 :=
  (claim_C9_fresh_per_call 0).2 0 (by decide)

/-- C10: every invocation of the search adapter, including failing
ones, puts exactly one diagnostic line on the trace — it contains the
query, it is the very first event (so it precedes the client
construction, which is the second event, and any network call), and no
other print event occurs; the server's tool transport is the stdio
transport, whose stream the diagnostic print shares. -/
theorem claim_C10_diagnostic_print (w : World) (q d ot : String) :
    ∃ rest, (LinkUpSearchTool_run w q d ot).1
        = Event.printLine (searchLine q) ::
          Event.clientNew w.getenv_LINKUP_API_KEY :: rest ∧
      rest.countP isPrintEvent = 0 ∧
      searchLine q = "[🔍 LinkUp Search] Searching for: " ++ q ∧
      mainTransport = "stdio" := by
  rcases h1 : w.newLinkupClient w.getenv_LINKUP_API_KEY with e | c
  · exact ⟨[], by simp [LinkUpSearchTool_run, h1], by simp, rfl, rfl⟩
  · exact ⟨[Event.clientSearchCall q d ot],
      by rcases h2 : w.clientSearch c q d ot with e | resp <;>
        simp [LinkUpSearchTool_run, h1, h2],
      by simp [List.countP_cons, isPrintEvent], rfl, rfl⟩

end DeepResearch
